import Mathlib

/-!
Shallow embedding of the ecs-svc-proxy reverse proxy (Go) and proofs about it.

The program discovers ECS service instances (container name, private IPv4)
from an orchestrator client, caches them in an in-memory list, and serves an
HTTP handler that redirects requests to the instance whose name contains the
routing key (taken from a configurable header) as a substring.

Source functions embedded here:
  - `getServiceDetail`  : first-match substring lookup over the snapshot
  - `getServiceDetails` : flattening of described tasks into the snapshot
  - `buildServiceDetails`: the full refresh pipeline (log.Fatalf on
    ListServices/ListTasks failure is modelled as a `fatalExit` outcome)
  - the HTTP handler closure registered in `main` (modelled as a pure
    function from header value / published snapshot / orchestrator answers
    to the sequence of response writes it performs)
  - `getEnv` / `LoadConfig` in both source variants (the config-file variant
    discards the constructed error; the monolithic variant panics)
  - an interleaving model of two concurrent handler executions, used to
    examine the refresh coordination (there is none in the code)
-/

/-- One discovered endpoint: `type ECSService struct { Name string; IP string }`. -/
structure ECSService where
  Name : String
  IP : String
deriving DecidableEq, Repr

/-- A network interface as returned by DescribeTasks: only the private IPv4
address is consumed by the program. -/
structure NetworkInterface where
  privateIpv4Address : String
deriving DecidableEq, Repr

/-- A container inside a described task: name plus network interfaces. -/
structure ContainerD where
  name : String
  networkInterfaces : List NetworkInterface
deriving DecidableEq, Repr

/-- One task as returned by DescribeTasks: its containers. -/
structure TaskD where
  containers : List ContainerD
deriving DecidableEq, Repr

/-- Byte/char-level check that `p` heads the list, as Go's prefix test inside
`strings.Index`: the empty pattern heads everything. -/
def hasPrefixChars : List Char → List Char → Bool
  | _, [] => true
  | [], _ :: _ => false
  | c :: s, d :: p => c == d && hasPrefixChars s p

/-- `containsChars s p` scans `s` left to right for an occurrence of `p`,
as Go's `strings.Contains(s, p)` (true at the first index where `p` matches;
the empty pattern is always found). -/
def containsChars : List Char → List Char → Bool
  | [], p => hasPrefixChars [] p
  | s@(_ :: rest), p => hasPrefixChars s p || containsChars rest p

/-- Go's `strings.Contains(s, sub)` on the character sequences. -/
def goContains (s sub : String) : Bool :=
  containsChars s.data sub.data

/-- `getServiceDetail(orgID, services)`: return the IP of the first service
whose Name contains `orgID` as a substring, else `("", false)`. -/
def getServiceDetail (orgID : String) : List ECSService → String × Bool
  | [] => ("", false)
  | svc :: rest =>
    if goContains svc.Name orgID then (svc.IP, true)
    else getServiceDetail orgID rest

/-- The orchestrator client capability consumed by discovery, as used by the
monolithic main (`part_001`): `ListTasks` is cluster-wide and takes no
service argument; `DescribeTasks` is called once per task ARN and answers
with a list of described tasks. -/
structure EcsClient where
  listServices : Except String (List String)
  listTasks : Except String (List String)
  describeTasks : String → Except String (List TaskD)

/-- The inner loop body of `getServiceDetails`: the Go nested `for` loops
appending one `ECSService` per (container, network interface) pair of one
described task onto the accumulator slice. -/
def appendTaskDetail (acc : List ECSService) (td : TaskD) : List ECSService :=
  td.containers.foldl
    (fun a c =>
      c.networkInterfaces.foldl
        (fun a n => a ++ [⟨c.name, n.privateIpv4Address⟩]) a)
    acc

/-- One iteration of the `getServiceDetails` loop: call DescribeTasks for
one task ARN; on error log and `continue` (the accumulator is unchanged, the
task is skipped); on success append every (container name, private IPv4)
pair of the answer. -/
def detailStep (describe : String → Except String (List TaskD))
    (acc : List ECSService) (arn : String) : List ECSService :=
  match describe arn with
  | .error _ => acc
  | .ok tds => tds.foldl appendTaskDetail acc

/-- `getServiceDetails(ecsClient, cluster, tasks)`: fold `detailStep` over
the task ARNs starting from the empty slice. -/
def getServiceDetails (describe : String → Except String (List TaskD))
    (tasks : List String) : List ECSService :=
  tasks.foldl (detailStep describe) []

/-- Outcome of `buildServiceDetails`: `log.Fatalf` terminates the process
(modelled as `fatalExit`); otherwise a complete snapshot is returned. -/
inductive BuildOutcome where
  | fatalExit
  | ok (snapshot : List ECSService)
deriving DecidableEq, Repr

/-- `buildServiceDetails(ecsClient, cluster)`: ListServices failure or
ListTasks failure hits `log.Fatalf` (process exit); otherwise the snapshot
is built from the listed tasks. The listed services are only logged. -/
def buildServiceDetails (c : EcsClient) : BuildOutcome :=
  match c.listServices with
  | .error _ => .fatalExit
  | .ok _ =>
    match c.listTasks with
    | .error _ => .fatalExit
    | .ok tasks => .ok (getServiceDetails c.describeTasks tasks)

/-- Specification-side flattening of one described task: all (container
name, private IPv4) pairs in container/interface order. -/
def taskInstances (td : TaskD) : List ECSService :=
  td.containers.flatMap fun c =>
    c.networkInterfaces.map fun n => ⟨c.name, n.privateIpv4Address⟩

/-- Specification-side contribution of one task ARN: nothing when its
DescribeTasks call fails, the flattening of the answer otherwise. -/
def describedInstances (describe : String → Except String (List TaskD))
    (arn : String) : List ECSService :=
  match describe arn with
  | .error _ => []
  | .ok tds => tds.flatMap taskInstances

/-- Whether the DescribeTasks call for one task ARN succeeds. -/
def describeOk (describe : String → Except String (List TaskD))
    (arn : String) : Bool :=
  match describe arn with
  | .error _ => false
  | .ok _ => true

/-- One write the handler performs on the `http.ResponseWriter`: either
`http.Error(w, body, status)` or `http.Redirect(w, r, location, status)`. -/
inductive WriteAction where
  | httpError (status : Nat) (body : String)
  | redirect (status : Nat) (location : String)
deriving DecidableEq, Repr

/-- Result of one handler execution: `fatal` when the in-handler refresh hit
`log.Fatalf` (the process exits mid-request), otherwise the sequence of
response writes in program order, the snapshot variable's final value, and
how many times `buildServiceDetails` was called. -/
inductive HandlerOutcome where
  | fatal
  | done (writes : List WriteAction) (published : List ECSService)
      (refreshCalls : Nat)
deriving DecidableEq, Repr

/-- The handler closure registered on `/`. Faithful to the source: after
writing the 400 error for an empty header value there is no `return`, so
execution continues into the lookup with the empty `orgID`; a miss runs
`buildServiceDetails` once, retries the lookup once, and writes 404 with a
fixed body on a second miss; a hit writes a 307 redirect to `http://ip`. -/
def handle (headerName orgID : String) (published : List ECSService)
    (c : EcsClient) : HandlerOutcome :=
  let w0 : List WriteAction :=
    if orgID = "" then
      [.httpError 400 ("missing required header " ++ headerName)]
    else []
  let r1 := getServiceDetail orgID published
  if r1.2 then
    .done (w0 ++ [.redirect 307 ("http://" ++ r1.1)]) published 0
  else
    match buildServiceDetails c with
    | .fatalExit => .fatal
    | .ok newSnap =>
      let r2 := getServiceDetail orgID newSnap
      if r2.2 then
        .done (w0 ++ [.redirect 307 ("http://" ++ r2.1)]) newSnap 1
      else
        .done (w0 ++ [.httpError 404 "Service not found for Org-ID"]) newSnap 1

/-- The status actually committed to the client: `net/http` sends the status
of the first `WriteHeader`, i.e. of the first write in program order. -/
def committedStatus : HandlerOutcome → Option Nat
  | .fatal => none
  | .done [] _ _ => none
  | .done (.httpError st _ :: _) _ _ => some st
  | .done (.redirect st _ :: _) _ _ => some st

/-- The server process around the published snapshot: `serving snap` while
alive with snapshot `snap`; `exited` once `log.Fatalf` has terminated it. -/
inductive ServerState where
  | serving (published : List ECSService)
  | exited
deriving DecidableEq, Repr

/-- Effect of one refresh (`serviceDetails = buildServiceDetails(...)`) on
the server: a fatal discovery failure exits the process, success replaces
the published snapshot. -/
def refreshStep (c : EcsClient) : ServerState → ServerState
  | .serving _ =>
    match buildServiceDetails c with
    | .fatalExit => .exited
    | .ok snap => .serving snap
  | .exited => .exited

/-- What a subsequent Lookup observes: the `getServiceDetail` result while
the server is alive; nothing at all once the process has exited. -/
def lookupObs : ServerState → String → Option (String × Bool)
  | .serving snap, k => some (getServiceDetail k snap)
  | .exited, _ => none

/-- Startup configuration: `type Config struct`. -/
structure Config where
  AWSRegion : String
  ECSCluster : String
  ProxyPort : String
  HeaderRoutingName : String
deriving DecidableEq, Repr

namespace ConfigPart

/-- `getEnv` from the separate config file: if the variable is set, return
its value; otherwise the `fmt.Errorf("missing mandatory env %s", key)`
result is constructed and immediately discarded (not panicked, not
returned), and the default value is returned. -/
def getEnv (env : String → Option String) (key defaultValue : String) :
    String :=
  match env key with
  | some value => value
  | none =>
    -- Go: `value` is the zero string here; the guard `value == "" &&
    -- defaultValue == ""` selects the missing-mandatory case, but the
    -- constructed error is dropped and control falls through.
    defaultValue

/-- `LoadConfig` from the separate config file. -/
def LoadConfig (env : String → Option String) : Config :=
  { AWSRegion := getEnv env "AWS_REGION" "us-west-2"
    ECSCluster := getEnv env "ECS_CLUSTER" ""
    ProxyPort := getEnv env "PROXY_PORT" "8080"
    HeaderRoutingName := getEnv env "DEFAULT_ORG_ID" "X-Org-ID" }

end ConfigPart

namespace MainPart

/-- `getEnv` from the monolithic main: same shape, but the missing-mandatory
case panics with `missing mandatory env <key>` (modelled as `Except.error`). -/
def getEnv (env : String → Option String) (key defaultValue : String) :
    Except String String :=
  match env key with
  | some value => .ok value
  | none =>
    let value := ""
    if value = "" ∧ defaultValue = "" then
      .error ("missing mandatory env " ++ key)
    else .ok defaultValue

/-- `LoadConfig` from the monolithic main: a panic in any `getEnv` call
aborts construction. -/
def LoadConfig (env : String → Option String) : Except String Config := do
  let region ← getEnv env "AWS_REGION" "us-west-2"
  let cluster ← getEnv env "ECS_CLUSTER" ""
  let port ← getEnv env "PROXY_PORT" "8080"
  let header ← getEnv env "DEFAULT_ORG_ID" "X-Org-ID"
  return { AWSRegion := region, ECSCluster := cluster,
           ProxyPort := port, HeaderRoutingName := header }

end MainPart

/-- Program counter of one handler goroutine on the miss path: about to do
the first lookup; first lookup missed, about to call `buildServiceDetails`;
refresh done, about to do the retry lookup; finished with a response write. -/
inductive Phase where
  | atStart
  | missed
  | retrying
  | finished (w : WriteAction)
deriving DecidableEq, Repr

/-- One handler goroutine: its program counter and whether it has already
issued its own `buildServiceDetails` call. -/
structure ThreadState where
  phase : Phase
  didRefresh : Bool
deriving DecidableEq, Repr

/-- The shared state two concurrent handler goroutines race on: the captured
`serviceDetails` variable, a count of `buildServiceDetails` calls issued to
the orchestrator, and the two goroutines. The code takes no lock and keeps
no in-progress flag, so each goroutine acts on the shared variable directly. -/
structure SysState where
  published : List ECSService
  refreshCalls : Nat
  t1 : ThreadState
  t2 : ThreadState
deriving DecidableEq, Repr

/-- One atomic action of one goroutine running the handler with routing key
`k`, where a successful refresh publishes `ans`. At `atStart` it reads the
shared snapshot and looks up; at `missed` it calls `buildServiceDetails`
(counted), assigns the shared variable, and proceeds; at `retrying` it looks
up again and finishes. A finished goroutine does nothing. -/
def threadStep (k : String) (ans : List ECSService)
    (published : List ECSService) (t : ThreadState) :
    ThreadState × List ECSService × Nat :=
  match t.phase with
  | .atStart =>
    let r := getServiceDetail k published
    if r.2 then
      (⟨.finished (.redirect 307 ("http://" ++ r.1)), t.didRefresh⟩,
        published, 0)
    else (⟨.missed, t.didRefresh⟩, published, 0)
  | .missed => (⟨.retrying, true⟩, ans, 1)
  | .retrying =>
    let r := getServiceDetail k published
    if r.2 then
      (⟨.finished (.redirect 307 ("http://" ++ r.1)), t.didRefresh⟩,
        published, 0)
    else
      (⟨.finished (.httpError 404 "Service not found for Org-ID"),
          t.didRefresh⟩, published, 0)
  | .finished _ => (t, published, 0)

/-- Run one scheduler choice: `false` steps goroutine 1, `true` steps
goroutine 2. -/
def sysStep (k : String) (ans : List ECSService) (s : SysState)
    (tid : Bool) : SysState :=
  if tid then
    let r := threadStep k ans s.published s.t2
    ⟨r.2.1, s.refreshCalls + r.2.2, s.t1, r.1⟩
  else
    let r := threadStep k ans s.published s.t1
    ⟨r.2.1, s.refreshCalls + r.2.2, r.1, s.t2⟩

/-- Run a whole schedule from a state. -/
def runSched (k : String) (ans : List ECSService) (s : SysState)
    (sched : List Bool) : SysState :=
  sched.foldl (sysStep k ans) s

/-- Both goroutines at the start of the handler over a published snapshot,
no refresh issued yet. -/
def initSys (published : List ECSService) : SysState :=
  ⟨published, 0, ⟨.atStart, false⟩, ⟨.atStart, false⟩⟩

/-- A goroutine counts in the refresh total once it has performed its
`missed` step. -/
def refreshUnits (t : ThreadState) : Nat :=
  if t.didRefresh then 1 else 0

/-- The invariant tying the shared refresh counter to the per-goroutine
flags: the counter is the sum of the flags, and a goroutine that has not yet
passed its `missed` step has its flag still clear. -/
def sysInv (s : SysState) : Prop :=
  s.refreshCalls = refreshUnits s.t1 + refreshUnits s.t2
    ∧ (s.t1.phase = .atStart ∨ s.t1.phase = .missed → s.t1.didRefresh = false)
    ∧ (s.t2.phase = .atStart ∨ s.t2.phase = .missed → s.t2.didRefresh = false)

/-- A DescribeTasks oracle used in concrete witnesses: `task-bad` fails,
`task-1` and `task-2` answer with one container and one interface each. -/
def sampleDescribe : String → Except String (List TaskD) := fun arn =>
  if arn = "task-bad" then .error "DescribeTasks failed"
  else if arn = "task-1" then .ok [⟨[⟨"org-1", [⟨"10.0.0.1"⟩]⟩]⟩]
  else .ok [⟨[⟨"org-2", [⟨"10.0.0.2"⟩]⟩]⟩]

/-- The task ARNs used in concrete witnesses: the middle one fails. -/
def sampleTasks : List String := ["task-1", "task-bad", "task-2"]

/-- A concrete client whose listing calls succeed and whose DescribeTasks is
`sampleDescribe`. -/
def sampleClient : EcsClient :=
  { listServices := .ok ["svcA"]
    listTasks := .ok sampleTasks
    describeTasks := sampleDescribe }

/-- A concrete client whose ListServices call fails. -/
def failClient : EcsClient :=
  { listServices := .error "ListServices failed"
    listTasks := .ok []
    describeTasks := fun _ => .ok [] }

/-- A concrete client that discovers nothing (empty cluster). -/
def emptyClient : EcsClient :=
  { listServices := .ok []
    listTasks := .ok []
    describeTasks := fun _ => .ok [] }

/-- A concrete client whose refresh discovers the instance `org-99` at
`10.0.0.9`. -/
def foundClient : EcsClient :=
  { listServices := .ok ["svcA"]
    listTasks := .ok ["t99"]
    describeTasks := fun _ => .ok [⟨[⟨"org-99", [⟨"10.0.0.9"⟩]⟩]⟩] }

/-- An environment with no variables set at all. -/
def emptyEnv : String → Option String := fun _ => none

theorem containsChars_nil_pat (s : List Char) : containsChars s [] = true := by
  cases s <;> simp [containsChars, hasPrefixChars]

theorem goContains_empty (s : String) : goContains s "" = true := by
  simpa [goContains] using containsChars_nil_pat s.data

/-- The lookup's boolean result agrees with existence of a matching instance. -/
theorem getServiceDetail_found_iff (k : String) (l : List ECSService) :
    (getServiceDetail k l).2 = true ↔ ∃ s ∈ l, goContains s.Name k = true := by
  induction l with
  | nil => simp [getServiceDetail]
  | cons svc rest ih =>
    by_cases h : goContains svc.Name k = true
    · simp [getServiceDetail, h]
    · have h' : goContains svc.Name k = false := by simpa using h
      simp [getServiceDetail, h', ih]

/-- When a first match exists, the lookup returns exactly its IP. -/
theorem getServiceDetail_eq_find (k : String) (l : List ECSService) :
    getServiceDetail k l =
      match l.find? (fun s => goContains s.Name k) with
      | some s => (s.IP, true)
      | none => ("", false) := by
  induction l with
  | nil => simp [getServiceDetail]
  | cons svc rest ih =>
    by_cases h : goContains svc.Name k = true
    · simp [getServiceDetail, List.find?, h]
    · have h' : goContains svc.Name k = false := by simpa using h
      simp [getServiceDetail, List.find?, h', ih]

theorem foldl_append_interfaces (nm : String) (ns : List NetworkInterface)
    (a : List ECSService) :
    ns.foldl (fun a n => a ++ [⟨nm, n.privateIpv4Address⟩]) a
      = a ++ ns.map fun n => ⟨nm, n.privateIpv4Address⟩ := by
  induction ns generalizing a with
  | nil => simp
  | cons n ns ih => simp [ih]

theorem appendTaskDetail_eq (a : List ECSService) (td : TaskD) :
    appendTaskDetail a td = a ++ taskInstances td := by
  unfold appendTaskDetail taskInstances
  induction td.containers generalizing a with
  | nil => simp
  | cons c cs ih =>
    simp only [List.foldl_cons, List.flatMap_cons]
    rw [ih, foldl_append_interfaces, List.append_assoc]

theorem foldl_appendTaskDetail (tds : List TaskD) (a : List ECSService) :
    tds.foldl appendTaskDetail a = a ++ tds.flatMap taskInstances := by
  induction tds generalizing a with
  | nil => simp
  | cons td tds ih =>
    simp only [List.foldl_cons, List.flatMap_cons]
    rw [ih, appendTaskDetail_eq, List.append_assoc]

theorem detailStep_eq (describe : String → Except String (List TaskD))
    (a : List ECSService) (arn : String) :
    detailStep describe a arn = a ++ describedInstances describe arn := by
  cases h : describe arn with
  | error e => simp [detailStep, describedInstances, h]
  | ok tds => simp [detailStep, describedInstances, h, foldl_appendTaskDetail]

theorem foldl_detailStep (describe : String → Except String (List TaskD))
    (tasks : List String) (a : List ECSService) :
    tasks.foldl (detailStep describe) a
      = a ++ tasks.flatMap (describedInstances describe) := by
  induction tasks generalizing a with
  | nil => simp
  | cons arn tasks ih =>
    simp only [List.foldl_cons, List.flatMap_cons]
    rw [ih, detailStep_eq, List.append_assoc]

theorem getServiceDetails_eq_flatMap
    (describe : String → Except String (List TaskD)) (tasks : List String) :
    getServiceDetails describe tasks
      = tasks.flatMap (describedInstances describe) := by
  simpa [getServiceDetails] using foldl_detailStep describe tasks []

theorem getServiceDetails_filter_ok
    (describe : String → Except String (List TaskD)) (tasks : List String) :
    getServiceDetails describe tasks
      = (tasks.filter (describeOk describe)).flatMap
          (describedInstances describe) := by
  rw [getServiceDetails_eq_flatMap]
  induction tasks with
  | nil => simp
  | cons arn tasks ih =>
    cases h : describe arn with
    | error e =>
      have hok : describeOk describe arn = false := by simp [describeOk, h]
      simp [List.filter, hok, ih, describedInstances, h]
    | ok tds =>
      have hok : describeOk describe arn = true := by simp [describeOk, h]
      simp [List.filter, hok, ih]

theorem threadStep_units (k : String) (ans : List ECSService)
    (published : List ECSService) (t : ThreadState)
    (h : t.phase = .atStart ∨ t.phase = .missed → t.didRefresh = false) :
    refreshUnits (threadStep k ans published t).1
        = refreshUnits t + (threadStep k ans published t).2.2
      ∧ ((threadStep k ans published t).1.phase = .atStart
          ∨ (threadStep k ans published t).1.phase = .missed
          → (threadStep k ans published t).1.didRefresh = false) := by
  cases hp : t.phase with
  | atStart =>
    have hf : t.didRefresh = false := h (Or.inl hp)
    by_cases hr : (getServiceDetail k published).2 = true
    · simp [threadStep, hp, hr, refreshUnits, hf]
    · simp [threadStep, hp, hr, refreshUnits, hf]
  | missed =>
    have hf : t.didRefresh = false := h (Or.inr hp)
    simp [threadStep, hp, refreshUnits, hf]
  | retrying =>
    by_cases hr : (getServiceDetail k published).2 = true
    · simp [threadStep, hp, hr, refreshUnits]
    · simp [threadStep, hp, hr, refreshUnits]
  | finished w => simp [threadStep, hp, refreshUnits]

theorem sysStep_inv (k : String) (ans : List ECSService) (s : SysState)
    (tid : Bool) (h : sysInv s) : sysInv (sysStep k ans s tid) := by
  obtain ⟨hc, h1, h2⟩ := h
  cases tid with
  | false =>
    obtain ⟨hu, hph⟩ := threadStep_units k ans s.published s.t1 h1
    refine ⟨?_, hph, h2⟩
    simp only [sysStep, Bool.false_eq_true, if_false]
    omega
  | true =>
    obtain ⟨hu, hph⟩ := threadStep_units k ans s.published s.t2 h2
    refine ⟨?_, h1, hph⟩
    simp only [sysStep, if_true]
    omega

theorem runSched_inv (k : String) (ans : List ECSService) (s : SysState)
    (sched : List Bool) (h : sysInv s) : sysInv (runSched k ans s sched) := by
  induction sched generalizing s with
  | nil => simpa [runSched] using h
  | cons b sched ih =>
    simpa [runSched, List.foldl_cons] using
      ih (sysStep k ans s b) (sysStep_inv k ans s b h)

theorem initSys_inv (published : List ECSService) : sysInv (initSys published) := by
  refine ⟨by simp [initSys, refreshUnits], ?_, ?_⟩ <;> simp [initSys]

theorem refreshUnits_le_one (t : ThreadState) : refreshUnits t ≤ 1 := by
  unfold refreshUnits
  split <;> omega

/-- C1: for every snapshot and key, the lookup succeeds iff some instance's
name contains the key as a substring, on success it returns the IP of the
first such instance in snapshot enumeration order, and otherwise it returns
the not-found pair. -/
theorem lookup_first_substring_match (k : String) (l : List ECSService) :
    ((getServiceDetail k l).2 = true ↔ ∃ s ∈ l, goContains s.Name k = true)
    ∧ (∀ s, l.find? (fun x => goContains x.Name k) = some s →
        getServiceDetail k l = (s.IP, true))
    ∧ (l.find? (fun x => goContains x.Name k) = none →
        getServiceDetail k l = ("", false)) := by
  refine ⟨getServiceDetail_found_iff k l, ?_, ?_⟩
  · intro s hs
    rw [getServiceDetail_eq_find k l, hs]
  · intro hn
    rw [getServiceDetail_eq_find k l, hn]

/-- Witness for C1 at the spec's own example snapshot. -/
theorem lookup_first_substring_match_witness :
    (getServiceDetail "42"
        [⟨"org-42-api", "10.0.0.5"⟩, ⟨"x-42", "10.0.0.6"⟩]).2 = true
    ∧ getServiceDetail "42" [⟨"org-42-api", "10.0.0.5"⟩, ⟨"x-42", "10.0.0.6"⟩]
        = ("10.0.0.5", true)
    ∧ getServiceDetail "zz" [⟨"org-42-api", "10.0.0.5"⟩] = ("", false) := by
  refine ⟨?_, ?_, ?_⟩
  · exact (lookup_first_substring_match "42" _).1.mpr
      ⟨⟨"org-42-api", "10.0.0.5"⟩, by simp, by decide⟩
  · exact (lookup_first_substring_match "42" _).2.1
      ⟨"org-42-api", "10.0.0.5"⟩ (by decide)
  · exact (lookup_first_substring_match "zz" _).2.2 (by decide)

/-- C2: at a request whose routing header value is empty, the handler writes
the 400 error whose body names the configured header — but there is no
`return` after `http.Error`, so it also continues into the lookup with the
empty key and performs a further write (here a 307 redirect to the first
instance). The claim that no other outcome occurs contradicts the code; the
missing `return` is a slip relative to the specified single-outcome Route. -/
theorem empty_header_extra_write :
    handle "X-Org-ID" "" [⟨"org-1", "10.0.0.1"⟩] sampleClient
      = .done [.httpError 400 "missing required header X-Org-ID",
               .redirect 307 "http://10.0.0.1"] [⟨"org-1", "10.0.0.1"⟩] 0
    ∧ handle "X-Org-ID" "" [] emptyClient
      = .done [.httpError 400 "missing required header X-Org-ID",
               .httpError 404 "Service not found for Org-ID"] [] 1 := by
  constructor <;> decide

/-- C3 counterexample: with ListServices failing, a refresh over the
published snapshot `[{org-1, 10.0.0.1}]` does not leave the previous
snapshot in effect — `log.Fatalf` exits the process, so a lookup of "org"
that returned `(10.0.0.1, true)` before the failed refresh can no longer be
answered at all afterwards. -/
theorem listservices_failure_lookup_changes :
    lookupObs (ServerState.serving [⟨"org-1", "10.0.0.1"⟩]) "org"
      = some ("10.0.0.1", true)
    ∧ refreshStep failClient (.serving [⟨"org-1", "10.0.0.1"⟩]) = .exited
    ∧ lookupObs (refreshStep failClient (.serving [⟨"org-1", "10.0.0.1"⟩]))
        "org" = none := by
  refine ⟨by decide, by decide, by decide⟩

/-- C3 (amended): if ListServices fails during a refresh, no snapshot —
partial or complete — is produced; instead of retaining the previous
snapshot and continuing, `buildServiceDetails` hits `log.Fatalf` and the
process exits, so the server stops serving entirely. -/
theorem listservices_failure_fatal_exit (c : EcsClient) (e : String)
    (snap : List ECSService) (h : c.listServices = .error e) :
    buildServiceDetails c = .fatalExit
    ∧ refreshStep c (.serving snap) = .exited := by
  constructor
  · simp [buildServiceDetails, h]
  · simp [refreshStep, buildServiceDetails, h]

/-- Witness for the amended C3 at a concrete failing client. -/
theorem listservices_failure_fatal_exit_witness :
    buildServiceDetails failClient = .fatalExit
    ∧ refreshStep failClient (.serving [⟨"a", "1.1.1.1"⟩]) = .exited :=
  listservices_failure_fatal_exit failClient "ListServices failed"
    [⟨"a", "1.1.1.1"⟩] rfl

/-- C4: when listing succeeds, the refresh completes (no fatal exit) and the
snapshot is exactly the flattening over the tasks whose DescribeTasks call
succeeded — failed tasks contribute nothing, nothing else is lost. -/
theorem describe_failure_partial_snapshot (c : EcsClient)
    (svcs tasks : List String) (hs : c.listServices = .ok svcs)
    (ht : c.listTasks = .ok tasks) :
    buildServiceDetails c = .ok (getServiceDetails c.describeTasks tasks)
    ∧ getServiceDetails c.describeTasks tasks
        = (tasks.filter (describeOk c.describeTasks)).flatMap
            (describedInstances c.describeTasks) := by
  refine ⟨?_, getServiceDetails_filter_ok _ tasks⟩
  simp [buildServiceDetails, hs, ht]

/-- Witness for C4: of three tasks the middle DescribeTasks call fails; the
snapshot still holds the instances of the two successful tasks. -/
theorem describe_failure_partial_snapshot_witness :
    buildServiceDetails sampleClient
      = .ok [⟨"org-1", "10.0.0.1"⟩, ⟨"org-2", "10.0.0.2"⟩]
    ∧ (buildServiceDetails sampleClient
        = .ok (getServiceDetails sampleClient.describeTasks sampleTasks)
      ∧ getServiceDetails sampleClient.describeTasks sampleTasks
          = (sampleTasks.filter (describeOk sampleClient.describeTasks)).flatMap
              (describedInstances sampleClient.describeTasks)) :=
  ⟨by decide,
   describe_failure_partial_snapshot sampleClient ["svcA"] sampleTasks rfl rfl⟩

/-- C5 counterexample: two concurrent goroutines that both miss. Under the
schedule that lets both perform their first lookup before either refreshes,
both run `buildServiceDetails`: two refresh calls reach the orchestrator,
not one, and both goroutines finish — there is no single-flight.  -/
theorem concurrent_miss_double_refresh :
    (runSched "a" [] (initSys []) [false, true, false, true, false, true]).refreshCalls
        = 2
    ∧ (runSched "a" [] (initSys []) [false, true, false, true, false, true]).t1.phase
        = .finished (.httpError 404 "Service not found for Org-ID")
    ∧ (runSched "a" [] (initSys []) [false, true, false, true, false, true]).t2.phase
        = .finished (.httpError 404 "Service not found for Org-ID") := by
  refine ⟨by decide, by decide, by decide⟩

/-- C5 (amended): the code has no single-flight coordination; each goroutine
that reaches the miss path issues its own `buildServiceDetails` call. In
every interleaving of two concurrent requests, the number of refresh calls
equals the number of goroutines that performed their refresh step — at most
one per goroutine, so up to two in total, rather than exactly one shared
refresh. -/
theorem refresh_calls_per_thread (k : String) (ans published : List ECSService)
    (sched : List Bool) :
    (runSched k ans (initSys published) sched).refreshCalls
        = refreshUnits (runSched k ans (initSys published) sched).t1
          + refreshUnits (runSched k ans (initSys published) sched).t2
    ∧ (runSched k ans (initSys published) sched).refreshCalls ≤ 2 := by
  obtain ⟨hc, -, -⟩ :=
    runSched_inv k ans (initSys published) sched (initSys_inv published)
  refine ⟨hc, ?_⟩
  rw [hc]
  have h1 := refreshUnits_le_one (runSched k ans (initSys published) sched).t1
  have h2 := refreshUnits_le_one (runSched k ans (initSys published) sched).t2
  omega

/-- C6 counterexample: the empty routing key resolves over a non-empty
snapshot (lookup returns the first instance's IP), yet the committed
response status is the 400 written for the missing header, not 307. -/
theorem empty_key_resolves_but_400 :
    getServiceDetail "" [⟨"org-1", "10.0.0.1"⟩] = ("10.0.0.1", true)
    ∧ committedStatus (handle "X-Org-ID" "" [⟨"org-1", "10.0.0.1"⟩] sampleClient)
        = some 400 := by
  refine ⟨by decide, by decide⟩

/-- C6 (amended): for every request with a non-empty routing key that
resolves — on the first lookup, or on the retry after the one refresh — the
handler's entire output is the single 307 redirect write with Location
`http://<ip>`. -/
theorem nonempty_resolved_redirect (hn k ip : String)
    (published : List ECSService) (c : EcsClient) (hk : ¬k = "") :
    (getServiceDetail k published = (ip, true) →
      handle hn k published c
        = .done [.redirect 307 ("http://" ++ ip)] published 0)
    ∧ ∀ newSnap, (getServiceDetail k published).2 = false →
        buildServiceDetails c = .ok newSnap →
        getServiceDetail k newSnap = (ip, true) →
        handle hn k published c
          = .done [.redirect 307 ("http://" ++ ip)] newSnap 1 := by
  constructor
  · intro h1
    simp [handle, hk, h1]
  · intro newSnap h1 hb h2
    simp [handle, hk, h1, hb, h2]

/-- Witness for the amended C6: a hit on the first lookup redirects with the
instance's IP; a miss that the refresh resolves redirects after exactly one
refresh. -/
theorem nonempty_resolved_redirect_witness :
    handle "X-Org-ID" "42" [⟨"org-42-api", "10.0.0.5"⟩] sampleClient
      = .done [.redirect 307 "http://10.0.0.5"] [⟨"org-42-api", "10.0.0.5"⟩] 0
    ∧ handle "X-Org-ID" "99" [] foundClient
      = .done [.redirect 307 "http://10.0.0.9"] [⟨"org-99", "10.0.0.9"⟩] 1 :=
  ⟨(nonempty_resolved_redirect "X-Org-ID" "42" "10.0.0.5"
      [⟨"org-42-api", "10.0.0.5"⟩] sampleClient (by decide)).1 (by decide),
   (nonempty_resolved_redirect "X-Org-ID" "99" "10.0.0.9" [] foundClient
      (by decide)).2 [⟨"org-99", "10.0.0.9"⟩] (by decide) (by decide)
      (by decide)⟩

/-- C7 counterexample: key "99" misses before and after the refresh; the
handler does respond 404 after exactly one refresh, but the body is the
fixed string `Service not found for Org-ID`, which does not contain "99" —
the message does not identify the unresolved key. -/
theorem notfound_body_lacks_key :
    handle "X-Org-ID" "99" [] emptyClient
      = .done [.httpError 404 "Service not found for Org-ID"] [] 1
    ∧ goContains "Service not found for Org-ID" "99" = false := by
  refine ⟨by decide, by decide⟩

/-- C7 (amended): for every request with a non-empty routing key that does
not resolve before or after the single refresh, the handler issues exactly
one `buildServiceDetails` call and one retry lookup and responds 404 with
the fixed body `Service not found for Org-ID`; the body does not mention the
key, which is only logged server-side. -/
theorem miss_single_refresh_retry_404 (hn k : String)
    (published newSnap : List ECSService) (c : EcsClient) (hk : ¬k = "")
    (h1 : (getServiceDetail k published).2 = false)
    (hb : buildServiceDetails c = .ok newSnap)
    (h2 : (getServiceDetail k newSnap).2 = false) :
    handle hn k published c
      = .done [.httpError 404 "Service not found for Org-ID"] newSnap 1 := by
  simp [handle, hk, h1, hb, h2]

/-- Witness for the amended C7 at key "99" against an empty cluster. -/
theorem miss_single_refresh_retry_404_witness :
    handle "X-Org-ID" "99" [⟨"org-1", "10.0.0.1"⟩] emptyClient
      = .done [.httpError 404 "Service not found for Org-ID"] [] 1 :=
  miss_single_refresh_retry_404 "X-Org-ID" "99" [⟨"org-1", "10.0.0.1"⟩] []
    emptyClient (by decide) (by decide) (by decide) (by decide)

/-- C8: with ECS_CLUSTER absent from the environment, the config-file
variant's `getEnv` constructs the missing-mandatory error but discards it,
so `LoadConfig` succeeds with an empty cluster identifier and the process
goes on to serve — loading is not fatal. The monolithic variant's `getEnv`
panics on the same input, which is the evident intent. -/
theorem missing_cluster_not_fatal :
    ConfigPart.LoadConfig emptyEnv
      = { AWSRegion := "us-west-2", ECSCluster := "", ProxyPort := "8080",
          HeaderRoutingName := "X-Org-ID" }
    ∧ MainPart.LoadConfig emptyEnv
        = .error "missing mandatory env ECS_CLUSTER" := by
  constructor
  · rfl
  · rfl

/-- C9: a completed refresh equals the flattening, in task, container,
interface enumeration order, of every (container name, private IPv4) pair
across all successfully-described tasks; a described task whose containers
all lack network interfaces contributes zero entries. -/
theorem refresh_snapshot_flattening
    (describe : String → Except String (List TaskD)) (tasks : List String)
    (td : TaskD) :
    getServiceDetails describe tasks
      = tasks.flatMap (describedInstances describe)
    ∧ (td.containers.all (fun c => c.networkInterfaces.isEmpty) = true →
        taskInstances td = []) := by
  refine ⟨getServiceDetails_eq_flatMap describe tasks, ?_⟩
  intro h
  unfold taskInstances
  rw [List.flatMap_eq_nil_iff]
  intro c hc
  have hce := List.all_eq_true.mp h c hc
  have hnil : c.networkInterfaces = [] := by simpa using hce
  simp [hnil]

/-- Witness for C9: the sample oracle with one failing task, plus a task
whose only container has no interfaces contributing nothing. -/
theorem refresh_snapshot_flattening_witness :
    getServiceDetails sampleDescribe sampleTasks
      = sampleTasks.flatMap (describedInstances sampleDescribe)
    ∧ taskInstances ⟨[⟨"web", []⟩]⟩ = [] :=
  ⟨(refresh_snapshot_flattening sampleDescribe sampleTasks ⟨[⟨"web", []⟩]⟩).1,
   (refresh_snapshot_flattening sampleDescribe sampleTasks
      ⟨[⟨"web", []⟩]⟩).2 (by decide)⟩

/-- C10: the empty string is a substring of every instance name, so the
empty-key lookup over a non-empty snapshot returns the very first
instance's IP with found=true, and returns not-found only on the empty
snapshot. -/
theorem empty_key_matches_first (nm : String) (s : ECSService)
    (rest : List ECSService) :
    goContains nm "" = true
    ∧ getServiceDetail "" (s :: rest) = (s.IP, true)
    ∧ getServiceDetail "" ([] : List ECSService) = ("", false) := by
  refine ⟨goContains_empty nm, ?_, rfl⟩
  simp [getServiceDetail, goContains_empty]
